import Mathlib

/-!
Shallow embedding of `RNS/Utilities/rnprobe.py` (`program_setup`), the probe
lifecycle of the Reticulum probe utility.  External collaborators (the RNS
transport stack) are not under `src/`; where their behaviour decides a claim
they are modelled from the specification, as noted on each definition.
-/

deriving instance DecidableEq for Except

namespace Rnprobe

/-- Delivery-receipt status, modelled from the spec: `DeliveryReceipt.status`
is an enum with an in-flight state (`RNS.PacketReceipt.SENT`) and terminal
states `Delivered` / `Failed`. -/
inductive Status where
  | sent
  | delivered
  | failed
  deriving DecidableEq, Repr

/-- Observable effects of `program_setup`, in program order: console writes
(each `print` event carries the full text written, terminator included),
the path-discovery request (`RNS.Transport.request_path`), 100 ms sleeps
(`time.sleep(0.1)`), transport initialisation (`RNS.Reticulum(...)`),
sending the probe (`probe.send()`), explicit interpreter exit (`exit()` /
`exit(1)`), and an unhandled-exception crash. -/
inductive Event where
  | print (s : String)
  | requestPath
  | sleep100ms
  | reticulumInit
  | sendProbe
  | exitProc (code : Nat)
  | crash
  deriving DecidableEq, Repr

/-- Modelled from the spec: the delivery-confirmation (proof) packet carried
by the receipt, with its identifier and optional direct signal metrics
(`rssi: number|absent, snr: number|absent`). -/
structure ProofPacket where
  packet_hash : List Nat
  rssi : Option Int
  snr : Option Int
  deriving DecidableEq

/-- Modelled from the spec: the collaborator interface surface consumed by
`program_setup` (§6 of the spec).  Call-dependent answers (`has_path`,
`receipt.status`) are oracles indexed by the ordinal number of the call,
since the transport mutates them asynchronously.  `next_hop_if_name` is the
string returned by `Reticulum.get_next_hop_if_name`, which encodes an
unknown interface as the string "None".  `rtt` is `receipt.get_rtt()`,
idealised as a rational number. -/
structure Env where
  truncated_hashlength : Nat
  mtu : Nat
  prettyhexrep : List Nat → String
  has_path : Nat → Bool
  packed_len : Nat → Nat
  receipt_status : Nat → Status
  receipt_dest_hash : List Nat
  rtt : ℚ
  hops : Nat
  next_hop : Option (List Nat)
  next_hop_if_name : String
  is_connected_to_shared_instance : Bool
  get_packet_rssi : List Nat → Option Int
  get_packet_snr : List Nat → Option Int
  proof_packet : Option ProofPacket

/-- `DEFAULT_PROBE_SIZE = 16` (rnprobe.py line 33). -/
def DEFAULT_PROBE_SIZE : Nat := 16

/-- The hex digit value of a character, as recognised by CPython
`bytes.fromhex` (`_PyLong_DigitValue`): `0-9`, `a-f`, `A-F`. -/
def hexDigitVal (c : Char) : Option Nat :=
  if '0' ≤ c ∧ c ≤ '9' then some (c.toNat - '0'.toNat)
  else if 'a' ≤ c ∧ c ≤ 'f' then some (c.toNat - 'a'.toNat + 10)
  else if 'A' ≤ c ∧ c ≤ 'F' then some (c.toNat - 'A'.toNat + 10)
  else none

/-- ASCII whitespace as recognised by CPython `Py_ISSPACE`: space, tab,
newline, carriage return, vertical tab, form feed. -/
def isPySpace (c : Char) : Bool :=
  c = ' ' ∨ c = '\t' ∨ c = '\n' ∨ c = '\x0d' ∨ c = '\x0b' ∨ c = '\x0c'

/-- Embedding of Python `bytes.fromhex` (CPython `_PyBytes_FromHex`):
ASCII whitespace is skipped between byte pairs; each byte is two
immediately adjacent hex digits; anything else raises `ValueError`
(modelled as `none`). -/
def bytesFromHex : List Char → Option (List Nat)
  | [] => some []
  | c :: rest =>
    if isPySpace c then bytesFromHex rest
    else
      match hexDigitVal c with
      | none => none
      | some hi =>
        match rest with
        | [] => none
        | c2 :: rest2 =>
          match hexDigitVal c2 with
          | none => none
          | some lo =>
            match bytesFromHex rest2 with
            | none => none
            | some bs => some ((hi * 16 + lo) :: bs)

/-- rnprobe.py lines 48-58: the destination hex-hash validation.
`dest_len = (RNS.Reticulum.TRUNCATED_HASHLENGTH//8)*2`; a length mismatch
raises `ValueError` with the length message, then `bytes.fromhex` failure
raises `ValueError("Invalid destination entered. Check your input.")`.
`thl` is the library constant `TRUNCATED_HASHLENGTH` (bits), a parameter
here since the library is an external collaborator. -/
def parse_destination (thl : Nat) (destination_hexhash : String) :
    Except String (List Nat) :=
  let dest_len := (thl / 8) * 2
  if destination_hexhash.length ≠ dest_len then
    .error ("Destination length is invalid, must be " ++ toString dest_len ++
      " hexadecimal characters (" ++ toString (dest_len / 2) ++ " bytes).")
  else
    match bytesFromHex destination_hexhash.data with
    | none => .error "Invalid destination entered. Check your input."
    | some bs => .ok bs

/-- Splitting a character list on `'.'`, the dotted-notation separator
(structural recursion; always returns at least one group). -/
def splitOnDot : List Char → List (List Char)
  | [] => [[]]
  | c :: rest =>
    match splitOnDot rest with
    | [] => []
    | g :: gs => if c = '.' then [] :: g :: gs else (c :: g) :: gs

/-- Modelled from the spec: `RNS.Destination.app_and_aspects_from_name`
(not under `src/`) splits the full destination name on the dotted-notation
separator and fails when fewer than two segments result. -/
def app_and_aspects_from_name (full_name : String) :
    Except String (String × List String) :=
  match (splitOnDot full_name.data).map String.mk with
  | a :: b :: rest => .ok (a, b :: rest)
  | _ => .error "Invalid destination name."

/-- Round-half-to-even of the fraction `n / d` to an integer, the rounding
used by Python `round` (computed on numerator and denominator so that the
kernel can evaluate it). -/
def roundDivHalfEven (n : ℤ) (d : ℕ) : ℤ :=
  let f := n.fdiv d
  let r := n.fmod d
  if 2 * r < (d : ℤ) then f
  else if 2 * r > (d : ℤ) then f + 1
  else if f % 2 = 0 then f else f + 1

/-- Python `round(q, 3)` in the rational idealisation of the float
operation, returned as an integer count of thousandths: the half-even
rounding of `q * 1000`. -/
def pyRound3Th (q : ℚ) : ℤ := roundDivHalfEven (q.num * 1000) q.den

/-- Fractional digits of a thousandths part (0..999) as printed by Python
`str` on a float rounded to 3 decimals: trailing zeros dropped, but at
least one fractional digit kept. -/
def decimals3 (t : Nat) : String :=
  let d1 := t / 100
  let d2 := t / 10 % 10
  let d3 := t % 10
  if d3 ≠ 0 then toString d1 ++ toString d2 ++ toString d3
  else if d2 ≠ 0 then toString d1 ++ toString d2
  else toString d1

/-- Python `str` of a float holding `t` thousandths (every value produced
by `round(x, 3)` in the rational idealisation). -/
def pyFloatStr (t : ℤ) : String :=
  let sign := if t < 0 then "-" else ""
  let a := t.natAbs
  sign ++ toString (a / 1000) ++ "." ++ decimals3 (a % 1000)

/-- rnprobe.py lines 129-135: round-trip-time formatting.  `rtt >= 1`
takes the seconds branch (`str(round(rtt, 3)) + " seconds"`), otherwise
milliseconds (`str(round(rtt*1000, 3)) + " milliseconds"`); the rational
`rtt * 1000` is the fraction `rtt.num * 1000 / rtt.den`. -/
def rtt_string (rtt : ℚ) : String :=
  if rtt ≥ 1 then pyFloatStr (pyRound3Th rtt) ++ " seconds"
  else pyFloatStr (roundDivHalfEven (rtt.num * 1000 * 1000) rtt.den) ++ " milliseconds"

/-- rnprobe.py lines 124-127: the variable `ms`, the hop unit suffix
(`"s"` when `hops != 1`, empty otherwise). -/
def hops_suffix (hops : Nat) : String := if hops ≠ 1 then "s" else ""

/-- rnprobe.py line 76: `syms = "⢄⢂⢁⡁⡈⡐⡠"` (7 code points). -/
def syms : List Char := "⢄⢂⢁⡁⡈⡐⡠".data

/-- The spinner frame printed each poll tick (lines 79 and 115):
`print("\b\b"+syms[i]+" ", end="")`. -/
def spinnerStr (i : Nat) : String :=
  "\x08\x08" ++ String.mk [syms.getD i ' '] ++ " "

/-- rnprobe.py lines 77-81: the path-wait loop.  `hp` answers the n-th
call of `RNS.Transport.has_path` (the call in the loop condition is call
number `call`; call 0 happened at line 70).  Each iteration sleeps 100 ms
then prints a spinner frame; `i = (i+1) % len(syms)`.  `fuel` bounds the
unrolling: `none` means the loop did not exit within `fuel` condition
checks (the code itself has no timeout). -/
def path_wait_loop (hp : Nat → Bool) : Nat → Nat → Nat → Option (List Event)
  | 0, _, _ => none
  | fuel + 1, call, i =>
    if hp call then some []
    else
      match path_wait_loop hp fuel (call + 1) ((i + 1) % syms.length) with
      | none => none
      | some tr => some (.sleep100ms :: .print (spinnerStr i) :: tr)

/-- rnprobe.py lines 112-117: the receipt-wait loop
`while receipt.status == RNS.PacketReceipt.SENT: sleep(0.1); print(spinner)`.
`rs` answers the n-th read of `receipt.status`; the condition of iteration
k is read `call + k`.  Returns the events and the number of iterations
(= the index of the read that exited the loop, when `call = 0`);
`none` when the loop did not exit within `fuel` reads. -/
def receipt_wait_loop (rs : Nat → Status) : Nat → Nat → Nat → Option (List Event × Nat)
  | 0, _, _ => none
  | fuel + 1, call, i =>
    if rs call = .sent then
      match receipt_wait_loop rs fuel (call + 1) ((i + 1) % syms.length) with
      | none => none
      | some (tr, n) => some (.sleep100ms :: .print (spinnerStr i) :: tr, n + 1)
    else some ([], 0)

/-- rnprobe.py lines 137-154: the `reception_stats` string.  When connected
to a shared instance, RSSI/SNR are looked up in the collaborator packet log
keyed by `receipt.proof_packet.packet_hash` (an `AttributeError` crash,
modelled as `.error ()`, if the proof packet is `None`); otherwise they are
read from the proof packet's own fields, guarded by a `None` check. -/
def reception_stats (env : Env) : Except Unit String :=
  if env.is_connected_to_shared_instance then
    match env.proof_packet with
    | none => .error ()
    | some pp =>
      let s1 := match env.get_packet_rssi pp.packet_hash with
        | some r => " [RSSI " ++ toString r ++ " dBm]"
        | none => ""
      let s2 := match env.get_packet_snr pp.packet_hash with
        | some r => " [SNR " ++ toString r ++ " dB]"
        | none => ""
      .ok (s1 ++ s2)
  else
    match env.proof_packet with
    | none => .ok ""
    | some pp =>
      let s1 := match pp.rssi with
        | some r => " [RSSI " ++ toString r ++ " dBm]"
        | none => ""
      let s2 := match pp.snr with
        | some r => " [SNR " ++ toString r ++ " dB]"
        | none => ""
      .ok (s1 ++ s2)

/-- rnprobe.py lines 122-162, delivered branch: the text of the
"Valid reply received" report (without the trailing newline `print` adds). -/
def delivered_report (env : Env) : Except Unit String :=
  (reception_stats env).map (fun stats =>
    "Valid reply received from " ++ env.prettyhexrep env.receipt_dest_hash ++
    "\nRound-trip time is " ++ rtt_string env.rtt ++
    " over " ++ toString env.hops ++ " hop" ++ hops_suffix env.hops ++
    stats)

/-- rnprobe.py lines 122-165: outcome classification on the value of
`receipt.status` read at line 122: the delivered report when it equals
`DELIVERED`, otherwise `print("Probe timed out")`. -/
def outcome_report (env : Env) (st : Status) : Except Unit (List Event) :=
  if st = .delivered then
    (delivered_report env).map (fun s => [.print (s ++ "\n")])
  else .ok [.print "Probe timed out\n"]

/-- rnprobe.py lines 70-74: when no path is known (`has_path` call 0 is
false) issue one `request_path` and print the request notice
(`end=" "`). -/
def path_request_events (env : Env) (dh : List Nat) : List Event :=
  if env.has_path 0 then []
  else [.requestPath,
        .print ("Path to " ++ env.prettyhexrep dh ++ " requested  " ++ " ")]

/-- rnprobe.py lines 102-108: the `more` string appended to the "Sent"
line when `more_output` is set: `" via <next hop>"` unless
`get_next_hop` returned `None`, and `" on <ifname>"` unless
`get_next_hop_if_name` returned the string `"None"`. -/
def more_string (env : Env) (more_output : Bool) : String :=
  if more_output then
    (match env.next_hop with
     | some nhd => " via " ++ env.prettyhexrep nhd
     | none => "") ++
    (if env.next_hop_if_name ≠ "None" then " on " ++ env.next_hop_if_name
     else "")
  else ""

/-- rnprobe.py line 110: the "Sent ... byte probe to ..." line
(`end=" "`). -/
def sent_line (env : Env) (size : Nat) (dh : List Nat) (more : String) : String :=
  "\rSent " ++ toString size ++ " byte probe to " ++ env.prettyhexrep dh ++
  more ++ "  " ++ " "

/-- Embedding of `program_setup` (rnprobe.py lines 35-165) as the list of
observable events of one invocation.  The two unbounded polling loops are
cut off by `pathFuel` / `recFuel`: a `none` result means one of them had
not exited within its fuel (the code itself never times out).  Failures of
the collaborator name parser and of the hash validation print the
exception text and call `exit()` (interpreter status 0); an MTU overflow
of the packed probe prints the size report and calls `exit(1)`; an
unhandled exception in the reporting phase ends the trace with `crash`. -/
def program_setup (env : Env) (destination_hexhash : String)
    (size? : Option Nat) (full_name : Option String) (verbosity : Int)
    (pathFuel recFuel : Nat) : Option (List Event) :=
  let size := size?.getD DEFAULT_PROBE_SIZE
  match full_name with
  | none =>
    some [.print "The full destination name including application name aspects must be specified for the destination\n",
          .exitProc 0]
  | some fn =>
    match app_and_aspects_from_name fn with
    | .error e => some [.print (e ++ "\n"), .exitProc 0]
    | .ok _ =>
      match parse_destination env.truncated_hashlength destination_hexhash with
      | .error e => some [.print (e ++ "\n"), .exitProc 0]
      | .ok dh =>
        let more_output := verbosity > 0
        match path_wait_loop env.has_path pathFuel 1 0 with
        | none => none
        | some ptr =>
          let pre := [Event.reticulumInit] ++ path_request_events env dh ++ ptr
          if env.packed_len size > env.mtu then
            some (pre ++
              [.print ("Error: Probe packet size of " ++
                 toString (env.packed_len size) ++ " bytes exceed MTU of " ++
                 toString env.mtu ++ " bytes\n"),
               .exitProc 1])
          else
            let sent := [Event.sendProbe,
              Event.print (sent_line env size dh (more_string env more_output))]
            match receipt_wait_loop env.receipt_status recFuel 0 0 with
            | none => none
            | some (rtr, n) =>
              let mid := pre ++ sent ++ rtr ++ [Event.print "\x08\x08 \n"]
              match outcome_report env (env.receipt_status (n + 1)) with
              | .error _ => some (mid ++ [.crash])
              | .ok out => some (mid ++ out)

/-- The exit code carried by an event, when it is an explicit `exit`. -/
def exitOf? (e : Event) : Option Nat :=
  match e with
  | .exitProc c => some c
  | _ => none

/-- Whether an event is an unhandled-exception crash. -/
def isCrash (e : Event) : Bool :=
  match e with
  | .crash => true
  | _ => false

/-- The process exit status encoded in a trace: the code of the first
explicit `exit`, 1 after an unhandled-exception crash, else the
interpreter default 0. -/
def traceExitCode (tr : List Event) : Nat :=
  match tr.findSome? exitOf? with
  | some c => c
  | none => if tr.any isCrash then 1 else 0

/-- A concrete collaborator environment (delivered probe, no shared
instance, path learned after one poll) used to instantiate theorems on
closed inputs. -/
def envW : Env where
  truncated_hashlength := 128
  mtu := 500
  prettyhexrep := fun _ => "<hash>"
  has_path := fun n => decide (2 ≤ n)
  packed_len := fun s => s + 70
  receipt_status := fun n => if n < 3 then .sent else .delivered
  receipt_dest_hash := [18, 52]
  rtt := Rat.mk' 1 2
  hops := 2
  next_hop := some [3]
  next_hop_if_name := "eth0"
  is_connected_to_shared_instance := false
  get_packet_rssi := fun _ => none
  get_packet_snr := fun _ => none
  proof_packet := some { packet_hash := [9], rssi := some (-80), snr := some 7 }

/-- `envW` with the path known from the start and a receipt that fails at
once. -/
def envFailed : Env :=
  { envW with
    has_path := fun _ => true
    receipt_status := fun _ => .failed }

/-- `envW` connected to a shared transport instance, with a packet log
holding an RSSI but no SNR for the proof packet. -/
def envShared : Env :=
  { envW with
    is_connected_to_shared_instance := true
    get_packet_rssi := fun h => if h = [9] then some (-70) else none
    get_packet_snr := fun _ => none }

/-- `envW` with an MTU too small for the packed probe. -/
def envMtu : Env := { envW with mtu := 50 }

/-- A receipt-status oracle that stays SENT for two reads and then fails,
used to instantiate the receipt-wait theorem. -/
def rsFailAfterTwo : Nat → Status := fun n => if n < 2 then .sent else .failed

/-! ### Helper lemmas (shared across the claim theorems) -/

theorem string_append_empty (s : String) : s ++ "" = s := by
  cases s with
  | mk data => show String.mk (data ++ []) = String.mk data; rw [List.append_nil]

theorem benign_events (tr : List Event)
    (h : ∀ e ∈ tr, e = .sleep100ms ∨ ∃ s, e = .print s) :
    Event.sendProbe ∉ tr ∧ Event.requestPath ∉ tr ∧
    tr.count .requestPath = 0 ∧
    (∀ e ∈ tr, exitOf? e = none) := by
  have hsend : Event.sendProbe ∉ tr := by
    intro hm
    rcases h _ hm with he | ⟨s, he⟩ <;> cases he
  have hreq : Event.requestPath ∉ tr := by
    intro hm
    rcases h _ hm with he | ⟨s, he⟩ <;> cases he
  refine ⟨hsend, hreq, List.count_eq_zero.mpr hreq, ?_⟩
  intro e he
  rcases h e he with rfl | ⟨s, rfl⟩ <;> rfl

theorem path_wait_loop_events (hp : Nat → Bool) :
    ∀ (fuel c i : Nat) (tr : List Event),
      path_wait_loop hp fuel c i = some tr →
      ∀ e ∈ tr, e = .sleep100ms ∨ ∃ s, e = .print s := by
  intro fuel
  induction fuel with
  | zero => intro c i tr h; simp [path_wait_loop] at h
  | succ f ih =>
    intro c i tr h
    rw [path_wait_loop] at h
    by_cases hc : hp c
    · simp [hc] at h
      subst h; intro e he; cases he
    · simp [hc] at h
      match htr : path_wait_loop hp f (c + 1) ((i + 1) % syms.length) with
      | none => rw [htr] at h; cases h
      | some tr2 =>
        rw [htr] at h
        simp at h
        subst h
        intro e he
        rcases List.mem_cons.mp he with rfl | he2
        · left; rfl
        · rcases List.mem_cons.mp he2 with rfl | he3
          · right; exact ⟨_, rfl⟩
          · exact ih _ _ _ htr e he3

theorem path_wait_loop_run (hp : Nat → Bool) :
    ∀ (n c fuel i : Nat),
      (∀ j, j < n → hp (c + j) = false) → hp (c + n) = true → n < fuel →
      ∃ tr, path_wait_loop hp fuel c i = some tr ∧
        tr.count .sleep100ms = n := by
  intro n
  induction n with
  | zero =>
    intro c fuel i _ htrue hf
    match fuel, hf with
    | f + 1, _ =>
      refine ⟨[], ?_, rfl⟩
      rw [path_wait_loop]
      simp at htrue
      simp [htrue]
  | succ m ih =>
    intro c fuel i hfalse htrue hf
    match fuel, hf with
    | f + 1, hf =>
      have h0 : hp c = false := by simpa using hfalse 0 (Nat.succ_pos m)
      have hfalse2 : ∀ j, j < m → hp (c + 1 + j) = false := by
        intro j hj
        have := hfalse (j + 1) (Nat.succ_lt_succ hj)
        simpa [Nat.add_assoc, Nat.add_comm 1 j] using this
      have htrue2 : hp (c + 1 + m) = true := by
        have : c + 1 + m = c + (m + 1) := by omega
        rw [this]; exact htrue
      obtain ⟨tr2, htr2, hcount⟩ :=
        ih (c + 1) f ((i + 1) % syms.length) hfalse2 htrue2 (Nat.lt_of_succ_lt_succ hf)
      refine ⟨.sleep100ms :: .print (spinnerStr i) :: tr2, ?_, ?_⟩
      · rw [path_wait_loop]; simp [h0, htr2]
      · simp [List.count_cons, hcount]

theorem receipt_wait_loop_events (rs : Nat → Status) :
    ∀ (fuel c i : Nat) (tr : List Event) (n : Nat),
      receipt_wait_loop rs fuel c i = some (tr, n) →
      ∀ e ∈ tr, e = .sleep100ms ∨ ∃ s, e = .print s := by
  intro fuel
  induction fuel with
  | zero => intro c i tr n h; simp [receipt_wait_loop] at h
  | succ f ih =>
    intro c i tr n h
    rw [receipt_wait_loop] at h
    by_cases hc : rs c = .sent
    · simp [hc] at h
      match htr : receipt_wait_loop rs f (c + 1) ((i + 1) % syms.length) with
      | none => rw [htr] at h; cases h
      | some (tr2, n2) =>
        rw [htr] at h
        simp at h
        obtain ⟨h1, _⟩ := h
        subst h1
        intro e he
        rcases List.mem_cons.mp he with rfl | he2
        · left; rfl
        · rcases List.mem_cons.mp he2 with rfl | he3
          · right; exact ⟨_, rfl⟩
          · exact ih _ _ _ _ htr e he3
    · simp [hc] at h
      obtain ⟨h1, _⟩ := h
      subst h1
      intro e he; cases he

theorem receipt_wait_loop_run (rs : Nat → Status) :
    ∀ (n c fuel i : Nat),
      (∀ j, j < n → rs (c + j) = .sent) → rs (c + n) ≠ .sent → n < fuel →
      ∃ tr, receipt_wait_loop rs fuel c i = some (tr, n) ∧
        tr.count .sleep100ms = n := by
  intro n
  induction n with
  | zero =>
    intro c fuel i _ hterm hf
    match fuel, hf with
    | f + 1, _ =>
      refine ⟨[], ?_, rfl⟩
      rw [receipt_wait_loop]
      simp at hterm
      simp [hterm]
  | succ m ih =>
    intro c fuel i hsent hterm hf
    match fuel, hf with
    | f + 1, hf =>
      have h0 : rs c = .sent := by simpa using hsent 0 (Nat.succ_pos m)
      have hsent2 : ∀ j, j < m → rs (c + 1 + j) = .sent := by
        intro j hj
        have := hsent (j + 1) (Nat.succ_lt_succ hj)
        simpa [Nat.add_assoc, Nat.add_comm 1 j] using this
      have hterm2 : rs (c + 1 + m) ≠ .sent := by
        have : c + 1 + m = c + (m + 1) := by omega
        rw [this]; exact hterm
      obtain ⟨tr2, htr2, hcount⟩ :=
        ih (c + 1) f ((i + 1) % syms.length) hsent2 hterm2 (Nat.lt_of_succ_lt_succ hf)
      refine ⟨.sleep100ms :: .print (spinnerStr i) :: tr2, ?_, ?_⟩
      · rw [receipt_wait_loop]; simp [h0, htr2]
      · simp [List.count_cons, hcount]

theorem receipt_wait_loop_stuck (rs : Nat → Status)
    (hall : ∀ j, rs j = .sent) :
    ∀ (fuel c i : Nat), receipt_wait_loop rs fuel c i = none := by
  intro fuel
  induction fuel with
  | zero => intro c i; rfl
  | succ f ih =>
    intro c i
    rw [receipt_wait_loop]
    simp [hall c, ih]

theorem bytesFromHex_eq_none_of_bad_char :
    ∀ (l : List Char) (c : Char), c ∈ l →
      hexDigitVal c = none → isPySpace c = false →
      bytesFromHex l = none := by
  intro l
  induction l using bytesFromHex.induct with
  | case1 =>
    intro c hc _ _; cases hc
  | case2 a rest hsp ih =>
    intro c hc hhex hspc
    rw [bytesFromHex, if_pos hsp]
    rcases List.mem_cons.mp hc with rfl | hc2
    · rw [hsp] at hspc; cases hspc
    · exact ih c hc2 hhex hspc
  | case3 a rest hsp hhexa =>
    intro c hc hhex hspc
    simp [bytesFromHex, hsp, hhexa]
  | case4 a hsp lo hhexa =>
    intro c hc hhex hspc
    simp [bytesFromHex, hsp, hhexa]
  | case5 a hsp lo hhexa b rest hhexb =>
    intro c hc hhex hspc
    simp [bytesFromHex, hsp, hhexa, hhexb]
  | case6 a hsp lo hhexa b rest lo2 hhexb hrest ih =>
    intro c hc hhex hspc
    simp [bytesFromHex, hsp, hhexa, hhexb, hrest]
  | case7 a hsp lo hhexa b rest lo2 hhexb bs hrest ih =>
    intro c hc hhex hspc
    rcases List.mem_cons.mp hc with rfl | hc2
    · rw [hhexa] at hhex; cases hhex
    · rcases List.mem_cons.mp hc2 with rfl | hc3
      · rw [hhexb] at hhex; cases hhex
      · exact absurd (ih c hc3 hhex hspc) (by rw [hrest]; simp)

theorem findSome?_exitOf?_append (pre tr : List Event)
    (hpre : ∀ e ∈ pre, exitOf? e = none) :
    (pre ++ tr).findSome? exitOf? = tr.findSome? exitOf? := by
  induction pre with
  | nil => rfl
  | cons a rest ih =>
    have ha : exitOf? a = none := hpre a (List.mem_cons_self a rest)
    have hrest : ∀ e ∈ rest, exitOf? e = none := fun e he =>
      hpre e (List.mem_cons_of_mem a he)
    simp [List.findSome?, ha, ih hrest]

theorem traceExitCode_append_exit (pre : List Event) (tr : List Event) (c : Nat)
    (hpre : ∀ e ∈ pre, exitOf? e = none)
    (htr : tr.findSome? exitOf? = some c) :
    traceExitCode (pre ++ tr) = c := by
  rw [traceExitCode, findSome?_exitOf?_append pre tr hpre, htr]

theorem program_setup_name_error (env : Env) (hexhash : String)
    (size? : Option Nat) (fn : String) (verbosity : Int) (pf rf : Nat)
    (e : String) (hfn : app_and_aspects_from_name fn = .error e) :
    program_setup env hexhash size? (some fn) verbosity pf rf =
      some [.print (e ++ "\n"), .exitProc 0] := by
  simp [program_setup, hfn]

theorem program_setup_parse_error (env : Env) (hexhash : String)
    (size? : Option Nat) (fn : String) (verbosity : Int) (pf rf : Nat)
    (aa : String × List String) (e : String)
    (hfn : app_and_aspects_from_name fn = .ok aa)
    (hparse : parse_destination env.truncated_hashlength hexhash = .error e) :
    program_setup env hexhash size? (some fn) verbosity pf rf =
      some [.print (e ++ "\n"), .exitProc 0] := by
  simp [program_setup, hfn, hparse]

theorem program_setup_mtu (env : Env) (hexhash : String) (size? : Option Nat)
    (fn : String) (verbosity : Int) (pf rf : Nat)
    (aa : String × List String) (dh : List Nat) (ptr : List Event)
    (hfn : app_and_aspects_from_name fn = .ok aa)
    (hparse : parse_destination env.truncated_hashlength hexhash = .ok dh)
    (hpl : path_wait_loop env.has_path pf 1 0 = some ptr)
    (hmtu : env.packed_len (size?.getD DEFAULT_PROBE_SIZE) > env.mtu) :
    program_setup env hexhash size? (some fn) verbosity pf rf =
      some ([Event.reticulumInit] ++ path_request_events env dh ++ ptr ++
        [.print ("Error: Probe packet size of " ++
           toString (env.packed_len (size?.getD DEFAULT_PROBE_SIZE)) ++
           " bytes exceed MTU of " ++ toString env.mtu ++ " bytes\n"),
         .exitProc 1]) := by
  simp [program_setup, hfn, hparse, hpl, hmtu]

theorem program_setup_ok (env : Env) (hexhash : String) (size? : Option Nat)
    (fn : String) (verbosity : Int) (pf rf : Nat)
    (aa : String × List String) (dh : List Nat) (ptr rtr out : List Event)
    (n : Nat)
    (hfn : app_and_aspects_from_name fn = .ok aa)
    (hparse : parse_destination env.truncated_hashlength hexhash = .ok dh)
    (hpl : path_wait_loop env.has_path pf 1 0 = some ptr)
    (hmtu : ¬ env.packed_len (size?.getD DEFAULT_PROBE_SIZE) > env.mtu)
    (hrl : receipt_wait_loop env.receipt_status rf 0 0 = some (rtr, n))
    (hout : outcome_report env (env.receipt_status (n + 1)) = .ok out) :
    program_setup env hexhash size? (some fn) verbosity pf rf =
      some ([Event.reticulumInit] ++ path_request_events env dh ++ ptr ++
        [Event.sendProbe,
         Event.print (sent_line env (size?.getD DEFAULT_PROBE_SIZE) dh
           (more_string env (decide (verbosity > 0))))] ++
        rtr ++ [Event.print "\x08\x08 \n"] ++ out) := by
  simp [program_setup, hfn, hparse, hpl, hmtu, hrl, hout]

theorem roundDivHalfEven_close (n : ℤ) (d : ℕ) (hd : 0 < d) :
    (2 * (roundDivHalfEven n d * d - n)).natAbs ≤ d := by
  have hD : (0 : ℤ) < (d : ℤ) := by exact_mod_cast hd
  have hr0 : 0 ≤ n.fmod (d : ℤ) := by
    rw [Int.fmod_eq_emod _ (le_of_lt hD)]
    exact Int.emod_nonneg n (ne_of_gt hD)
  have hrD : n.fmod (d : ℤ) < (d : ℤ) := Int.fmod_lt_of_pos n hD
  have key : n.fdiv (d : ℤ) * (d : ℤ) + n.fmod (d : ℤ) = n := by
    have h0 := Int.fdiv_add_fmod n (d : ℤ)
    linarith [h0, mul_comm (d : ℤ) (n.fdiv (d : ℤ))]
  have e1 : (n.fdiv (d : ℤ) + 1) * (d : ℤ) =
      n.fdiv (d : ℤ) * (d : ℤ) + (d : ℤ) := by ring
  simp only [roundDivHalfEven]
  split_ifs <;> first
  | (rw [e1]; omega)
  | omega

theorem outcome_report_shape (env : Env) (st : Status) (out : List Event)
    (h : outcome_report env st = .ok out) : ∃ s, out = [.print s] := by
  rw [outcome_report] at h
  by_cases hd : st = .delivered
  · rw [if_pos hd] at h
    match hrep : delivered_report env with
    | .error u => rw [hrep] at h; cases h
    | .ok s =>
      rw [hrep] at h
      simp [Except.map] at h
      exact ⟨s ++ "\n", h.symm⟩
  · rw [if_neg hd] at h
    simp at h
    exact ⟨"Probe timed out\n", h.symm⟩

theorem path_request_events_cases (env : Env) (dh : List Nat) (e : Event)
    (he : e ∈ path_request_events env dh) :
    e = .requestPath ∨ ∃ s, e = .print s := by
  rw [path_request_events] at he
  by_cases h0 : env.has_path 0
  · rw [if_pos h0] at he; cases he
  · rw [if_neg h0] at he
    rcases List.mem_cons.mp he with rfl | he2
    · left; rfl
    · rcases List.mem_cons.mp he2 with rfl | he3
      · right; exact ⟨_, rfl⟩
      · cases he3

theorem path_request_events_count (env : Env) (dh : List Nat) :
    (path_request_events env dh).count .requestPath =
      (if env.has_path 0 then 0 else 1) := by
  by_cases h0 : env.has_path 0 <;>
    simp [path_request_events, h0, List.count_cons]

theorem pre_trace_events (env : Env) (dh : List Nat) (ptr : List Event)
    (hptr : ∀ e ∈ ptr, e = .sleep100ms ∨ ∃ s, e = .print s) :
    ∀ e ∈ [Event.reticulumInit] ++ path_request_events env dh ++ ptr,
      e = .reticulumInit ∨ e = .requestPath ∨ e = .sleep100ms ∨
        ∃ s, e = .print s := by
  intro e he
  rcases List.mem_append.mp he with he1 | he2
  · rcases List.mem_append.mp he1 with he3 | he4
    · rcases List.mem_cons.mp he3 with rfl | h
      · left; rfl
      · cases h
    · rcases path_request_events_cases env dh e he4 with rfl | hs
      · right; left; rfl
      · right; right; right; exact hs
  · rcases hptr e he2 with rfl | hs
    · right; right; left; rfl
    · right; right; right; exact hs

/-! ### Claim theorems -/

/-- C5: for every Delivered receipt, the RTT report takes the seconds
branch (3-decimal rounding of `rtt`, then `" seconds"`) exactly when
`rtt ≥ 1`, and otherwise formats the 3-decimal rounding of `rtt * 1000`
followed by `" milliseconds"`; the 3-decimal rounding is correct to
within half a thousandth; and on the concrete inputs of the spec,
`rtt = 1.0` takes the seconds branch giving `"1.0 seconds"`, `0.5`
gives `"500.0 milliseconds"` and `2.345` gives `"2.345 seconds"`. -/
theorem C5_rtt_formatting (q : ℚ) :
    (q ≥ 1 → rtt_string q = pyFloatStr (pyRound3Th q) ++ " seconds") ∧
    (¬ q ≥ 1 → rtt_string q =
      pyFloatStr (roundDivHalfEven (q.num * 1000 * 1000) q.den) ++
        " milliseconds") ∧
    (∀ (n : ℤ) (d : ℕ), 0 < d →
      (2 * (roundDivHalfEven n d * d - n)).natAbs ≤ d) ∧
    rtt_string 1 = "1.0 seconds" ∧
    rtt_string (Rat.mk' 1 2) = "500.0 milliseconds" ∧
    rtt_string (Rat.mk' 469 200) = "2.345 seconds" := by
  refine ⟨fun h => by rw [rtt_string, if_pos h],
          fun h => by rw [rtt_string, if_neg h],
          fun n d hd => roundDivHalfEven_close n d hd,
          by decide, by decide, by decide⟩

/-- Witness for C5 at the boundary input `rtt = 1`. -/
theorem C5_rtt_formatting_witness :
    rtt_string 1 = pyFloatStr (pyRound3Th 1) ++ " seconds" :=
  (C5_rtt_formatting 1).1 (by decide)

/-- C8: the hop unit suffix of the Delivered report is empty (singular
"hop") exactly when the hop count is 1 and "s" (plural) for every other
count, 0 included, and the report text places
`" over <hops> hop<suffix>"` accordingly. -/
theorem C8_hop_pluralization (h : Nat) (env : Env) (stats : String)
    (hh : env.hops = h) (hst : reception_stats env = .ok stats) :
    (hops_suffix h = "" ↔ h = 1) ∧
    (hops_suffix h = "s" ↔ h ≠ 1) ∧
    delivered_report env = .ok
      ("Valid reply received from " ++ env.prettyhexrep env.receipt_dest_hash ++
       "\nRound-trip time is " ++ rtt_string env.rtt ++
       " over " ++ toString h ++ " hop" ++ hops_suffix h ++ stats) := by
  subst hh
  refine ⟨?_, ?_, ?_⟩
  · by_cases h1 : env.hops = 1
    · simp [hops_suffix, h1]
    · simp only [hops_suffix, if_pos h1]
      constructor
      · intro hEq; exact absurd hEq (by decide)
      · intro h2; exact absurd h2 h1
  · by_cases h1 : env.hops = 1
    · simp only [hops_suffix, h1]
      constructor
      · intro hEq; exact absurd hEq (by decide)
      · intro h2; exact absurd rfl h2
    · simp [hops_suffix, h1]
  · rw [delivered_report, hst]; rfl

/-- Witness for C8 at hop count 2 in the concrete environment `envW`. -/
theorem C8_hop_pluralization_witness :
    hops_suffix 2 = "s" ↔ 2 ≠ 1 :=
  (C8_hop_pluralization 2 envW
    (" [RSSI -80 dBm]" ++ " [SNR 7 dB]") (by decide) (by decide)).2.1

/-- C6: for a Delivered receipt, when connected to a shared upstream
instance the RSSI and SNR are queried from the collaborator packet log by
the proof packet's identifier, otherwise they are read from the proof
packet's own fields; each is independently optional and its bracketed
annotation is omitted exactly when it is absent. -/
theorem C6_signal_metrics (env : Env) (pp : ProofPacket)
    (hp : env.proof_packet = some pp) :
    (env.is_connected_to_shared_instance = true →
      reception_stats env = .ok (
        (match env.get_packet_rssi pp.packet_hash with
         | some r => " [RSSI " ++ toString r ++ " dBm]"
         | none => "") ++
        (match env.get_packet_snr pp.packet_hash with
         | some r => " [SNR " ++ toString r ++ " dB]"
         | none => ""))) ∧
    (env.is_connected_to_shared_instance = false →
      reception_stats env = .ok (
        (match pp.rssi with
         | some r => " [RSSI " ++ toString r ++ " dBm]"
         | none => "") ++
        (match pp.snr with
         | some r => " [SNR " ++ toString r ++ " dB]"
         | none => ""))) := by
  constructor <;> intro hs <;> simp [reception_stats, hs, hp]

/-- Witness for C6 in the shared-instance environment `envShared`:
the RSSI comes from the packet log of the collaborator and the SNR
annotation is omitted. -/
theorem C6_signal_metrics_witness :
    reception_stats envShared = .ok (" [RSSI -70 dBm]" ++ "") :=
  (C6_signal_metrics envShared
    { packet_hash := [9], rssi := some (-80), snr := some 7 }
    (by decide)).1 (by decide)

/-- C10: for a Delivered receipt with no shared instance and an absent
proof packet, reporting completes without error (the `None` check guards
every field access) and the report carries no RSSI or SNR annotation. -/
theorem C10_no_proof_packet_safe (env : Env)
    (hs : env.is_connected_to_shared_instance = false)
    (hp : env.proof_packet = none) :
    reception_stats env = .ok "" ∧
    delivered_report env = .ok
      ("Valid reply received from " ++ env.prettyhexrep env.receipt_dest_hash ++
       "\nRound-trip time is " ++ rtt_string env.rtt ++
       " over " ++ toString env.hops ++ " hop" ++ hops_suffix env.hops) ∧
    (∃ s, outcome_report env .delivered = .ok [.print s]) := by
  have h1 : reception_stats env = .ok "" := by
    simp [reception_stats, hs, hp]
  refine ⟨h1, ?_, ?_⟩
  · rw [delivered_report, h1]
    simp [Except.map, string_append_empty]
  · rw [outcome_report, if_pos rfl]
    match hrep : delivered_report env with
    | .error u => rw [delivered_report, h1] at hrep; cases hrep
    | .ok s => exact ⟨s ++ "\n", by simp [Except.map]⟩

/-- Witness for C10 in `envW` with the proof packet removed. -/
theorem C10_no_proof_packet_safe_witness :
    reception_stats { envW with proof_packet := none } = .ok "" :=
  (C10_no_proof_packet_safe { envW with proof_packet := none }
    (by decide) (by decide)).1

/-- C1: the receipt-wait loop reads `receipt.status` repeatedly, sleeping
100 ms per tick, and exits exactly at the first read that is no longer
SENT; if every read stays SENT the loop never exits, for any fuel bound
(the core imposes no timeout of its own); and whenever the status checked
afterwards is anything other than Delivered the program prints exactly
"Probe timed out", with no numeric detail. -/
theorem C1_receipt_wait (env : Env) (rs : Nat → Status) (n fuel i0 : Nat)
    (hsent : ∀ j, j < n → rs j = .sent) (hterm : rs n ≠ .sent)
    (hfuel : n < fuel) :
    (∃ tr, receipt_wait_loop rs fuel 0 i0 = some (tr, n) ∧
       tr.count .sleep100ms = n) ∧
    (∀ rs2 : Nat → Status, (∀ j, rs2 j = .sent) →
       ∀ f c i, receipt_wait_loop rs2 f c i = none) ∧
    (∀ st, st ≠ .delivered →
       outcome_report env st = .ok [.print "Probe timed out\n"]) := by
  refine ⟨?_, ?_, ?_⟩
  · have h := receipt_wait_loop_run rs n 0 fuel i0
      (fun j hj => by simpa using hsent j hj) (by simpa using hterm) hfuel
    simpa using h
  · exact fun rs2 hall f c i => receipt_wait_loop_stuck rs2 hall f c i
  · intro st hst
    rw [outcome_report, if_neg hst]

/-- Witness for C1 with a status oracle that fails at the third read. -/
theorem C1_receipt_wait_witness :
    ∃ tr, receipt_wait_loop rsFailAfterTwo 5 0 0 = some (tr, 2) ∧
      tr.count .sleep100ms = 2 :=
  (C1_receipt_wait envW rsFailAfterTwo 2 5 0
    (by decide) (by decide) (by decide)).1

/-- Counterexample to C2 as stated: the 32-character string
`"aabb ccdd eeff 0011 2233 4455 66"` has the correct length (2 times the
16-byte truncated-hash length) and contains the non-hexadecimal character
`' '`, yet `bytes.fromhex` accepts it (whitespace between byte pairs is
skipped), parsing yields a 13-byte hash, and the program proceeds to the
transport calls instead of exiting. -/
theorem C2_counterexample :
    "aabb ccdd eeff 0011 2233 4455 66".length = 2 * (128 / 8) ∧
    ' ' ∈ "aabb ccdd eeff 0011 2233 4455 66".data ∧
    hexDigitVal ' ' = none ∧
    parse_destination 128 "aabb ccdd eeff 0011 2233 4455 66" =
      .ok [170, 187, 204, 221, 238, 255, 0, 17, 34, 51, 68, 85, 102] ∧
    program_setup envFailed "aabb ccdd eeff 0011 2233 4455 66" none
        (some "app.aspect") 0 5 5 =
      some [.reticulumInit, .sendProbe,
            .print "\rSent 16 byte probe to <hash>   ",
            .print "\x08\x08 \n", .print "Probe timed out\n"] := by
  refine ⟨by decide, by decide, by decide, by decide, by decide⟩

/-- C2 (amended): a hex-hash string of the wrong length always fails
validation with the length error and the process exits (status 0) before
any transport call; a correct-length string containing a character that is
neither a hexadecimal digit nor ASCII whitespace always fails with the
invalid-destination error, likewise exiting first.  (Correct-length
strings whose only non-hex characters are ASCII whitespace between byte
pairs are accepted, since `bytes.fromhex` skips such whitespace.) -/
theorem C2_hex_validation (env : Env) (hexhash : String)
    (size? : Option Nat) (fn : String) (verbosity : Int) (pf rf : Nat)
    (aa : String × List String)
    (hfn : app_and_aspects_from_name fn = .ok aa) :
    (hexhash.length ≠ (env.truncated_hashlength / 8) * 2 →
      parse_destination env.truncated_hashlength hexhash =
        .error ("Destination length is invalid, must be " ++
          toString ((env.truncated_hashlength / 8) * 2) ++
          " hexadecimal characters (" ++
          toString ((env.truncated_hashlength / 8) * 2 / 2) ++ " bytes).") ∧
      program_setup env hexhash size? (some fn) verbosity pf rf =
        some [.print (("Destination length is invalid, must be " ++
          toString ((env.truncated_hashlength / 8) * 2) ++
          " hexadecimal characters (" ++
          toString ((env.truncated_hashlength / 8) * 2 / 2) ++ " bytes).") ++
          "\n"), .exitProc 0]) ∧
    (∀ c ∈ hexhash.data, hexDigitVal c = none → isPySpace c = false →
      hexhash.length = (env.truncated_hashlength / 8) * 2 →
      parse_destination env.truncated_hashlength hexhash =
        .error "Invalid destination entered. Check your input." ∧
      program_setup env hexhash size? (some fn) verbosity pf rf =
        some [.print ("Invalid destination entered. Check your input." ++
          "\n"), .exitProc 0]) := by
  constructor
  · intro hlen
    have hp : parse_destination env.truncated_hashlength hexhash =
        .error ("Destination length is invalid, must be " ++
          toString ((env.truncated_hashlength / 8) * 2) ++
          " hexadecimal characters (" ++
          toString ((env.truncated_hashlength / 8) * 2 / 2) ++ " bytes).") := by
      simp only [parse_destination]
      rw [if_pos hlen]
    exact ⟨hp, program_setup_parse_error env hexhash size? fn verbosity pf rf
      aa _ hfn hp⟩
  · intro c hc hhex hsp hlen
    have hnone : bytesFromHex hexhash.data = none :=
      bytesFromHex_eq_none_of_bad_char hexhash.data c hc hhex hsp
    have hp : parse_destination env.truncated_hashlength hexhash =
        .error "Invalid destination entered. Check your input." := by
      simp only [parse_destination]
      rw [if_neg (by simp [hlen]), hnone]
    exact ⟨hp, program_setup_parse_error env hexhash size? fn verbosity pf rf
      aa _ hfn hp⟩

/-- Witness for C2 (amended) on the length-mismatch input `"abc"`. -/
theorem C2_hex_validation_witness :
    parse_destination envW.truncated_hashlength "abc" =
      .error ("Destination length is invalid, must be " ++
        toString ((envW.truncated_hashlength / 8) * 2) ++
        " hexadecimal characters (" ++
        toString ((envW.truncated_hashlength / 8) * 2 / 2) ++ " bytes).") ∧
    program_setup envW "abc" none (some "app.aspect") 0 5 5 =
      some [.print (("Destination length is invalid, must be " ++
        toString ((envW.truncated_hashlength / 8) * 2) ++
        " hexadecimal characters (" ++
        toString ((envW.truncated_hashlength / 8) * 2 / 2) ++ " bytes).") ++
        "\n"), .exitProc 0] :=
  (C2_hex_validation envW "abc" none "app.aspect" 0 5 5 ("app", ["aspect"])
    (by decide)).1 (by decide)

/-- C3: when the packed probe frame exceeds the network MTU, packing
fails (spec-modelled `SizeExceededError`: `pack` raises exactly when the
packed length exceeds the MTU), the program prints the required byte
count against the MTU limit, terminates with exit status 1, and never
sends a probe packet. -/
theorem C3_mtu_exceeded (env : Env) (hexhash : String) (size? : Option Nat)
    (fn : String) (verbosity : Int) (pf rf : Nat)
    (aa : String × List String) (dh : List Nat) (ptr : List Event)
    (hfn : app_and_aspects_from_name fn = .ok aa)
    (hparse : parse_destination env.truncated_hashlength hexhash = .ok dh)
    (hpl : path_wait_loop env.has_path pf 1 0 = some ptr)
    (hmtu : env.packed_len (size?.getD DEFAULT_PROBE_SIZE) > env.mtu) :
    ∃ tr, program_setup env hexhash size? (some fn) verbosity pf rf =
        some tr ∧
      tr = [Event.reticulumInit] ++ path_request_events env dh ++ ptr ++
        [.print ("Error: Probe packet size of " ++
           toString (env.packed_len (size?.getD DEFAULT_PROBE_SIZE)) ++
           " bytes exceed MTU of " ++ toString env.mtu ++ " bytes\n"),
         .exitProc 1] ∧
      traceExitCode tr = 1 ∧
      Event.sendProbe ∉ tr := by
  have hptr := path_wait_loop_events env.has_path pf 1 0 ptr hpl
  have hpre := pre_trace_events env dh ptr hptr
  refine ⟨_, program_setup_mtu env hexhash size? fn verbosity pf rf aa dh ptr
      hfn hparse hpl hmtu, rfl, ?_, ?_⟩
  · refine traceExitCode_append_exit _ _ 1 ?_ rfl
    intro e he
    rcases hpre e he with rfl | rfl | rfl | ⟨s, rfl⟩ <;> rfl
  · intro hm
    rcases List.mem_append.mp hm with hm1 | hm2
    · rcases hpre _ hm1 with h | h | h | ⟨s, h⟩ <;> cases h
    · rcases List.mem_cons.mp hm2 with h | h
      · cases h
      · rcases List.mem_cons.mp h with h2 | h2
        · cases h2
        · cases h2

/-- Witness for C3 with the small-MTU environment `envMtu`. -/
theorem C3_mtu_exceeded_witness :
    ∃ tr, program_setup envMtu "aabbccddeeff00112233445566778899" none
        (some "app.aspect") 0 5 5 = some tr ∧
      tr = [Event.reticulumInit] ++
        path_request_events envMtu
          [170, 187, 204, 221, 238, 255, 0, 17, 34, 51, 68, 85, 102,
           119, 136, 153] ++
        [Event.sleep100ms, Event.print (spinnerStr 0)] ++
        [.print ("Error: Probe packet size of " ++
           toString (envMtu.packed_len ((none : Option Nat).getD
             DEFAULT_PROBE_SIZE)) ++
           " bytes exceed MTU of " ++ toString envMtu.mtu ++ " bytes\n"),
         .exitProc 1] ∧
      traceExitCode tr = 1 ∧
      Event.sendProbe ∉ tr :=
  C3_mtu_exceeded envMtu "aabbccddeeff00112233445566778899" none
    "app.aspect" 0 5 5 ("app", ["aspect"])
    [170, 187, 204, 221, 238, 255, 0, 17, 34, 51, 68, 85, 102, 119, 136, 153]
    [Event.sleep100ms, Event.print (spinnerStr 0)]
    (by decide) (by decide) (by decide) (by decide)

/-- C4: when no path is known (`has_path` call 0 is false) exactly one
path-discovery request is issued, then `has_path` is polled with one
100 ms sleep per false answer until it turns true, and only then is the
probe sent; when the path is already known no request is issued (the
request count of the whole trace is 0 or 1 according to the initial
`has_path` answer, and the send event never occurs in the path phase). -/
theorem C4_path_discovery (env : Env) (hexhash : String) (size? : Option Nat)
    (fn : String) (verbosity : Int) (pf rf : Nat)
    (aa : String × List String) (dh : List Nat) (n k : Nat)
    (rtr out : List Event)
    (hfn : app_and_aspects_from_name fn = .ok aa)
    (hparse : parse_destination env.truncated_hashlength hexhash = .ok dh)
    (hfalse : ∀ j, j < n → env.has_path (1 + j) = false)
    (htrue : env.has_path (1 + n) = true)
    (hpf : n < pf)
    (hmtu : ¬ env.packed_len (size?.getD DEFAULT_PROBE_SIZE) > env.mtu)
    (hrl : receipt_wait_loop env.receipt_status rf 0 0 = some (rtr, k))
    (hout : outcome_report env (env.receipt_status (k + 1)) = .ok out) :
    ∃ ptr tr,
      path_wait_loop env.has_path pf 1 0 = some ptr ∧
      ptr.count .sleep100ms = n ∧
      program_setup env hexhash size? (some fn) verbosity pf rf = some tr ∧
      tr = [Event.reticulumInit] ++ path_request_events env dh ++ ptr ++
        [Event.sendProbe,
         Event.print (sent_line env (size?.getD DEFAULT_PROBE_SIZE) dh
           (more_string env (decide (verbosity > 0))))] ++
        rtr ++ [Event.print "\x08\x08 \n"] ++ out ∧
      tr.count .requestPath = (if env.has_path 0 then 0 else 1) ∧
      Event.sendProbe ∉
        [Event.reticulumInit] ++ path_request_events env dh ++ ptr := by
  obtain ⟨ptr, hpl, hcnt⟩ :=
    path_wait_loop_run env.has_path n 1 pf 0 hfalse htrue hpf
  have hptr := path_wait_loop_events env.has_path pf 1 0 ptr hpl
  have hrtr := receipt_wait_loop_events env.receipt_status rf 0 0 rtr k hrl
  obtain ⟨s, hs⟩ := outcome_report_shape env _ out hout
  obtain ⟨hb1, hb2, hb3, hb4⟩ := benign_events ptr hptr
  obtain ⟨hc1, hc2, hc3, hc4⟩ := benign_events rtr hrtr
  refine ⟨ptr, _, hpl, hcnt,
    program_setup_ok env hexhash size? fn verbosity pf rf aa dh ptr rtr out k
      hfn hparse hpl hmtu hrl hout, rfl, ?_, ?_⟩
  · subst hs
    by_cases h0 : env.has_path 0 <;>
      simp [List.count_append, List.count_cons, path_request_events, h0,
        hb3, hc3]
  · intro hm
    rcases List.mem_append.mp hm with hm1 | hm2
    · rcases List.mem_append.mp hm1 with hm3 | hm4
      · rcases List.mem_cons.mp hm3 with h | h
        · cases h
        · cases h
      · rcases path_request_events_cases env dh _ hm4 with h | ⟨s2, h⟩ <;>
          cases h
    · exact hb1 hm2

/-- Witness for C4 in `envW`: the path is learned after one poll tick and
the delivered probe completes. -/
theorem C4_path_discovery_witness :
    ∃ ptr tr,
      path_wait_loop envW.has_path 5 1 0 = some ptr ∧
      ptr.count .sleep100ms = 1 ∧
      program_setup envW "aabbccddeeff00112233445566778899" none
        (some "app.aspect") 0 5 10 = some tr ∧
      tr = [Event.reticulumInit] ++
        path_request_events envW
          [170, 187, 204, 221, 238, 255, 0, 17, 34, 51, 68, 85, 102,
           119, 136, 153] ++ ptr ++
        [Event.sendProbe,
         Event.print (sent_line envW ((none : Option Nat).getD
             DEFAULT_PROBE_SIZE)
           [170, 187, 204, 221, 238, 255, 0, 17, 34, 51, 68, 85, 102,
            119, 136, 153]
           (more_string envW (decide ((0 : Int) > 0))))] ++
        [Event.sleep100ms, Event.print (spinnerStr 0),
         Event.sleep100ms, Event.print (spinnerStr 1),
         Event.sleep100ms, Event.print (spinnerStr 2)] ++
        [Event.print "\x08\x08 \n"] ++
        [Event.print ("Valid reply received from <hash>\nRound-trip time is 500.0 milliseconds over 2 hops [RSSI -80 dBm] [SNR 7 dB]" ++ "\n")] ∧
      tr.count .requestPath = (if envW.has_path 0 then 0 else 1) ∧
      Event.sendProbe ∉
        [Event.reticulumInit] ++
          path_request_events envW
            [170, 187, 204, 221, 238, 255, 0, 17, 34, 51, 68, 85, 102,
             119, 136, 153] ++ ptr :=
  C4_path_discovery envW "aabbccddeeff00112233445566778899" none
    "app.aspect" 0 5 10 ("app", ["aspect"])
    [170, 187, 204, 221, 238, 255, 0, 17, 34, 51, 68, 85, 102, 119, 136, 153]
    1 3
    [Event.sleep100ms, Event.print (spinnerStr 0),
     Event.sleep100ms, Event.print (spinnerStr 1),
     Event.sleep100ms, Event.print (spinnerStr 2)]
    [Event.print ("Valid reply received from <hash>\nRound-trip time is 500.0 milliseconds over 2 hops [RSSI -80 dBm] [SNR 7 dB]" ++ "\n")]
    (by decide) (by decide) (by decide) (by decide) (by decide) (by decide)
    (by decide) (by decide)

/-- C7: when the verbosity flag is set, the line printed immediately after
the send event and before the receipt-wait events carries the next-hop
annotation (omitted when the next hop is unknown) and the interface-name
annotation (omitted when the collaborator reports the sentinel "None"). -/
theorem C7_verbose_reporting (env : Env) (hexhash : String)
    (size? : Option Nat) (fn : String) (verbosity : Int) (pf rf : Nat)
    (aa : String × List String) (dh : List Nat) (k : Nat)
    (ptr rtr out : List Event)
    (hfn : app_and_aspects_from_name fn = .ok aa)
    (hparse : parse_destination env.truncated_hashlength hexhash = .ok dh)
    (hpl : path_wait_loop env.has_path pf 1 0 = some ptr)
    (hmtu : ¬ env.packed_len (size?.getD DEFAULT_PROBE_SIZE) > env.mtu)
    (hrl : receipt_wait_loop env.receipt_status rf 0 0 = some (rtr, k))
    (hout : outcome_report env (env.receipt_status (k + 1)) = .ok out)
    (hv : verbosity > 0) :
    ∃ pre, program_setup env hexhash size? (some fn) verbosity pf rf =
        some (pre ++
          [Event.sendProbe,
           Event.print (sent_line env (size?.getD DEFAULT_PROBE_SIZE) dh
             (more_string env true))] ++
          rtr ++ [Event.print "\x08\x08 \n"] ++ out) ∧
      more_string env true =
        (match env.next_hop with
         | some nhd => " via " ++ env.prettyhexrep nhd
         | none => "") ++
        (if env.next_hop_if_name ≠ "None" then " on " ++ env.next_hop_if_name
         else "") ∧
      (env.next_hop = none → env.next_hop_if_name = "None" →
        more_string env true = "") := by
  have hdec : (decide (verbosity > 0)) = true := decide_eq_true hv
  refine ⟨[Event.reticulumInit] ++ path_request_events env dh ++ ptr,
    ?_, ?_, ?_⟩
  · have h := program_setup_ok env hexhash size? fn verbosity pf rf aa dh
      ptr rtr out k hfn hparse hpl hmtu hrl hout
    rw [hdec] at h
    exact h
  · rfl
  · intro h1 h2
    rw [more_string]
    simp [h1, h2]

/-- Witness for C7 in `envW` with verbosity 1: the line names the next
hop and the interface eth0. -/
theorem C7_verbose_reporting_witness :
    ∃ pre, program_setup envW "aabbccddeeff00112233445566778899" none
        (some "app.aspect") 1 5 10 =
      some (pre ++
        [Event.sendProbe,
         Event.print (sent_line envW ((none : Option Nat).getD
             DEFAULT_PROBE_SIZE)
           [170, 187, 204, 221, 238, 255, 0, 17, 34, 51, 68, 85, 102,
            119, 136, 153]
           (more_string envW true))] ++
        [Event.sleep100ms, Event.print (spinnerStr 0),
         Event.sleep100ms, Event.print (spinnerStr 1),
         Event.sleep100ms, Event.print (spinnerStr 2)] ++
        [Event.print "\x08\x08 \n"] ++
        [Event.print ("Valid reply received from <hash>\nRound-trip time is 500.0 milliseconds over 2 hops [RSSI -80 dBm] [SNR 7 dB]" ++ "\n")]) ∧
      more_string envW true =
        (match envW.next_hop with
         | some nhd => " via " ++ envW.prettyhexrep nhd
         | none => "") ++
        (if envW.next_hop_if_name ≠ "None" then " on " ++ envW.next_hop_if_name
         else "") ∧
      (envW.next_hop = none → envW.next_hop_if_name = "None" →
        more_string envW true = "") :=
  C7_verbose_reporting envW "aabbccddeeff00112233445566778899" none
    "app.aspect" 1 5 10 ("app", ["aspect"])
    [170, 187, 204, 221, 238, 255, 0, 17, 34, 51, 68, 85, 102, 119, 136, 153]
    3
    [Event.sleep100ms, Event.print (spinnerStr 0)]
    [Event.sleep100ms, Event.print (spinnerStr 0),
     Event.sleep100ms, Event.print (spinnerStr 1),
     Event.sleep100ms, Event.print (spinnerStr 2)]
    [Event.print ("Valid reply received from <hash>\nRound-trip time is 500.0 milliseconds over 2 hops [RSSI -80 dBm] [SNR 7 dB]" ++ "\n")]
    (by decide) (by decide) (by decide) (by decide) (by decide) (by decide)
    (by decide)

/-- C9: a malformed destination signature and an invalid destination hex
hash both print the error text and exit via plain `exit()`, which carries
the interpreter default status 0, while the MTU-exceeded path exits with
status 1. -/
theorem C9_parse_error_exit_status (env : Env) (hexhash : String)
    (size? : Option Nat) (fn : String) (verbosity : Int) (pf rf : Nat) :
    (∀ e, app_and_aspects_from_name fn = .error e →
       program_setup env hexhash size? (some fn) verbosity pf rf =
         some [.print (e ++ "\n"), .exitProc 0] ∧
       traceExitCode [.print (e ++ "\n"), .exitProc 0] = 0) ∧
    (∀ aa e, app_and_aspects_from_name fn = .ok aa →
       parse_destination env.truncated_hashlength hexhash = .error e →
       program_setup env hexhash size? (some fn) verbosity pf rf =
         some [.print (e ++ "\n"), .exitProc 0] ∧
       traceExitCode [.print (e ++ "\n"), .exitProc 0] = 0) ∧
    (∀ (m : String) (pre : List Event), (∀ e ∈ pre, exitOf? e = none) →
       traceExitCode (pre ++ [.print m, .exitProc 1]) = 1) := by
  refine ⟨?_, ?_, ?_⟩
  · intro e he
    exact ⟨program_setup_name_error env hexhash size? fn verbosity pf rf e he,
      rfl⟩
  · intro aa e hok hpe
    exact ⟨program_setup_parse_error env hexhash size? fn verbosity pf rf
      aa e hok hpe, rfl⟩
  · intro m pre hpre
    exact traceExitCode_append_exit pre _ 1 hpre rfl

/-- Witness for C9 on the dot-less signature `"nodots"`. -/
theorem C9_parse_error_exit_status_witness :
    program_setup envW "abc" none (some "nodots") 0 5 5 =
      some [.print ("Invalid destination name." ++ "\n"), .exitProc 0] ∧
    traceExitCode
      [.print ("Invalid destination name." ++ "\n"), .exitProc 0] = 0 :=
  (C9_parse_error_exit_status envW "abc" none "nodots" 0 5 5).1
    "Invalid destination name." (by decide)

end Rnprobe
